import Mathlib

/-!
Shallow embedding of `sysalert` (`src/main.rs`), a single-shot host
health-check agent.  The program samples load average, disk free ratios,
memory free ratio, process presence, per-process memory, a duplicate-process
count, a heartbeat file's age and the system uptime, accumulates one
formatted string per violated rule into a `Vec<String>` called `errors`,
and, when that vector is nonempty, sends one Telegram message consisting of
a host header line followed by the error lines joined with `"\n"`.

Modelling conventions:
  * Rust `f64` values are modelled by the type `FVal` below: either NaN,
    +infinity, or an exact rational.  The only f64 operations the program
    performs on integer-derived data are division of two nonnegative
    integers (`x as f64 / y as f64`) and order comparison; `fdiv` and
    `FVal.lt` reproduce the IEEE-754 behaviour of those operations
    (0/0 = NaN, x/0 = +inf for x > 0, and any `<` comparison whose left
    operand is NaN or +inf is false against a finite bound).  Finite values
    are kept exact (rationals) rather than rounded to 53-bit floats; no
    checked property depends on the rounding of an inexact quotient.
    Sampled load averages and configured thresholds are abstract finite
    f64 values, modelled directly as rationals.
  * Rust `u64` values are `Nat`; the one place the program subtracts
    (`total_memory - used_memory`, release-profile wrapping subtraction)
    is modelled by `wrapSub`, which agrees with `(a - b) mod 2^64` for
    operands below `2^64`.
  * Rust `String`/`&str` are Lean `String`; `str::contains` is the
    list-infix test `strContains`; `[String]::join` is `rustJoin`.
  * `format!("{:.4}", v)` on an f64 is `fmt4F` / `fmt4` (fixed four
    decimal digits, round to nearest); `format!("{}", v)` on an f64 is
    `fmtQ` (decimal expansion, no trailing zeros, no decimal point for
    integral values); `format!("{}", n)` on a u64 is `toString`.
-/

/-- Model of the Rust `f64` values occurring in the program: NaN, +∞, or a
finite value kept as an exact rational. -/
inductive FVal where
  | nan : FVal
  | inf : FVal
  | fin : ℚ → FVal
deriving DecidableEq

/-- Division `a as f64 / b as f64` for `u64` operands, with the IEEE-754 special
cases: `0/0` is NaN and `x/0` for `x > 0` is +∞; otherwise the exact
quotient (`mkRat a b = (a : ℚ) / (b : ℚ)` when `b ≠ 0`). -/
def fdiv (a b : ℕ) : FVal :=
  if b = 0 then (if a = 0 then FVal.nan else FVal.inf) else FVal.fin (mkRat a b)

/-- The f64 comparison `v < t` against a finite bound `t`: false when `v` is
NaN (every comparison with NaN is false) or +∞. -/
def FVal.lt (v : FVal) (t : ℚ) : Bool :=
  match v with
  | FVal.nan => false
  | FVal.inf => false
  | FVal.fin q => decide (q < t)

/-- Wrapping `u64` subtraction (`a - b` compiled with overflow checks off):
for `a, b < 2^64` this equals `(a - b) mod 2^64`. -/
def wrapSub (a b : ℕ) : ℕ :=
  if b ≤ a then a - b else 2 ^ 64 + a - b

/-- Left-pad the decimal representation of `n < 10000` to four digits. -/
def pad4 (n : ℕ) : String :=
  if n < 10 then "000" ++ toString n
  else if n < 100 then "00" ++ toString n
  else if n < 1000 then "0" ++ toString n
  else toString n

/-- Rendering `format!("{:.4}", q)` for a nonnegative rational: round `q * 10000` to
the nearest integer (computed on numerator and denominator so that the
kernel can evaluate it) and print with four decimal digits. -/
def fmt4Nonneg (q : ℚ) : String :=
  let n : ℕ := (q.num.toNat * 10000 * 2 + q.den) / (q.den * 2)
  toString (n / 10000) ++ "." ++ pad4 (n % 10000)

/-- Model of Rust's `{:.4}` fixed-precision formatting of a finite f64. -/
def fmt4 (q : ℚ) : String :=
  if q < 0 then "-" ++ fmt4Nonneg (-q) else fmt4Nonneg q

/-- Rendering `format!("{:.4}", v)` over the full f64 model (Rust prints `NaN` and
`inf` for the special values). -/
def fmt4F : FVal → String
  | FVal.nan => "NaN"
  | FVal.inf => "inf"
  | FVal.fin q => fmt4 q

/-- Fractional decimal digits of `r / d` (with `r < d`), emitted by long
division until the remainder vanishes, with fuel. -/
def fracDigits : ℕ → ℕ → ℕ → List Char
  | 0, _, _ => []
  | _ + 1, 0, _ => []
  | fuel + 1, r, d => Nat.digitChar (r * 10 / d) :: fracDigits fuel (r * 10 % d) d

/-- Rendering `format!("{}", q)` for a nonnegative rational: decimal form, omitting
the decimal point for integral values (Rust prints `2.0_f64` as `2` and
`0.05_f64` as `0.05`). -/
def fmtQNonneg (q : ℚ) : String :=
  let ip : ℕ := q.num.toNat / q.den
  let r : ℕ := q.num.toNat % q.den
  if r = 0 then toString ip
  else toString ip ++ "." ++ String.mk (fracDigits 64 r q.den)

/-- Model of Rust's default `Display` formatting of a finite f64. -/
def fmtQ (q : ℚ) : String :=
  if q < 0 then "-" ++ fmtQNonneg (-q) else fmtQNonneg q

/-- Rust's `[String]::join(sep)`. -/
def rustJoin (sep : String) : List String → String
  | [] => ""
  | [a] => a
  | a :: b :: rest => a ++ sep ++ rustJoin sep (b :: rest)

/-- Boolean list-prefix test (used to model `str::contains`). -/
def listPrefixB : List Char → List Char → Bool
  | [], _ => true
  | _ :: _, [] => false
  | a :: as, b :: bs => a = b && listPrefixB as bs

/-- Boolean list-infix test. -/
def listInfixB (pat : List Char) : List Char → Bool
  | [] => listPrefixB pat []
  | a :: rest => listPrefixB pat (a :: rest) || listInfixB pat rest

/-- Rust's `str::contains(pat)`. -/
def strContains (hay pat : String) : Bool :=
  listInfixB pat.data hay.data

/-- Statement `if cond \x7b errors.push(line) \x7d`: the list of strings this run of the
`check_value!` / `check_running!` macro bodies appends to `errors`. -/
def pushIf (c : Prop) [Decidable c] (line : String) : List String :=
  if c then [line] else []

example : strContains "mariadbd" "b2" = false := by decide
example : strContains "worker-b2" "b2" = true := by decide
example : fmtQNonneg (mkRat 1 20) = "0.05" := by decide
example : fmt4 (mkRat 3 100) = "0.0300" := by decide
example : fmt4F (fdiv 3 100) = "0.0300" := by decide
example : fmt4F (fdiv 0 0) = "NaN" := by decide

/-! ## Configuration (structs `Config`, `ProcessChecks`, `LoadAverage`,
`Disks`, `Memory` of `src/main.rs`, with serde defaults made explicit) -/

/-- Rust `struct ProcessChecks` (all fields `#[serde(default)]`, i.e. `false`). -/
structure ProcessChecks where
  disable_mysql_check : Bool
  disable_mysql_memory_check : Bool
  disable_web_server_check : Bool

/-- Rust `struct LoadAverage`: the resolved per-component load-average ceilings
(f64 values, modelled as rationals). -/
structure LoadAverage where
  one : ℚ
  five : ℚ
  fifteen : ℚ

/-- Function `fn default_load_average()`: the host's logical CPU count as an f64
(`system.cpus().len() as f64`). -/
def default_load_average (cpuCount : ℕ) : ℚ :=
  (cpuCount : ℚ)

/-- The `impl Default for LoadAverage`: every component defaults to
`default_load_average()`. -/
def LoadAverage.default (cpuCount : ℕ) : LoadAverage :=
  let value := default_load_average cpuCount
  { one := value, five := value, fifteen := value }

/-- The `load_average` section as written by the operator: each field is
optional (`#[serde(default = "default_load_average")]`). -/
structure RawLoadAverage where
  one : Option ℚ
  five : Option ℚ
  fifteen : Option ℚ

/-- Serde's field-level resolution of a present `load_average` section:
each omitted field is filled with `default_load_average()`. -/
def RawLoadAverage.resolve (raw : RawLoadAverage) (cpuCount : ℕ) : LoadAverage :=
  { one := raw.one.getD (default_load_average cpuCount)
    five := raw.five.getD (default_load_average cpuCount)
    fifteen := raw.fifteen.getD (default_load_average cpuCount) }

/-- Serde's resolution of the optional `load_average` section of `Config`
(`#[serde(default)]` falls back to `impl Default for LoadAverage`). -/
def resolveLoadAverage (raw : Option RawLoadAverage) (cpuCount : ℕ) : LoadAverage :=
  match raw with
  | none => LoadAverage.default cpuCount
  | some r => r.resolve cpuCount

/-- Rust `struct Disks`: watched mount paths (default `["/"]`) and the minimum
free ratio (default `0.05`). -/
structure Disks where
  disks : List String
  minimum : ℚ

/-- Rust `struct Memory`: the minimum memory free ratio (default `0.05`). -/
structure Memory where
  minimum : ℚ

/-- Rust `struct Config` (identity fields plus the resolved sections). -/
structure Config where
  telegram_token : String
  telegram_chat_id : String
  disable_self_update : Bool
  memory : Memory
  disks : Disks
  load_average : LoadAverage
  process_checks : ProcessChecks

/-! ## Metric snapshot -/

/-- One entry of `s.disks()`: mount point, `available_space()` and
`total_space()` in bytes (u64). -/
structure DiskEntry where
  mount_point : String
  available_space : ℕ
  total_space : ℕ

/-- One running process: its name and `memory()` (resident bytes, u64). -/
structure ProcEntry where
  name : String
  memory : ℕ

/-- Outcome of inspecting the heartbeat file `/tmp/backup.heartbeat`,
mirroring the nesting of `fs::metadata(..)`, `metadata.modified()` and
`time.elapsed()` in `main`. -/
inductive HeartbeatObs where
  | metaErr : String → HeartbeatObs
  | modifiedErr : HeartbeatObs
  | elapsedErr : HeartbeatObs
  | elapsedSecs : ℕ → HeartbeatObs

/-- Point-in-time readings from the `sysinfo` system handle `s`. -/
structure Snapshot where
  load_one : ℚ
  load_five : ℚ
  load_fifteen : ℚ
  disks : List DiskEntry
  available_memory : ℕ
  total_memory : ℕ
  used_memory : ℕ
  processes : List ProcEntry
  heartbeat : HeartbeatObs
  uptimeSecs : ℕ

/-- Call `s.processes_by_name(name)`: the processes whose name contains `name`
as a substring (the `sysinfo` matching rule). -/
def processes_by_name (procs : List ProcEntry) (name : String) : List ProcEntry :=
  procs.filter (fun p => strContains p.name name)

/-! ## The individual checks (macro expansions of `check_value!` and
`check_running!` at their call sites in `main`, lines 235-310) -/

/-- Expansion of `check_value!("🚨 load 1", system_load_avg.one, >, config.load_average.one * 2.0)`
(line 236): note the threshold is **twice** the resolved one-minute ceiling. -/
def loadOneFindings (la : LoadAverage) (one : ℚ) : List String :=
  pushIf (one > la.one * 2)
    ("`🚨 load 1: " ++ fmt4 one ++ " > " ++ fmtQ (la.one * 2) ++ "`")

/-- Expansion of `check_value!("load 5", system_load_avg.five, >, config.load_average.five)`
(line 237). -/
def loadFiveFindings (la : LoadAverage) (five : ℚ) : List String :=
  pushIf (five > la.five)
    ("`load 5: " ++ fmt4 five ++ " > " ++ fmtQ la.five ++ "`")

/-- Expansion of `check_value!("load 15", system_load_avg.fifteen, >, config.load_average.fifteen)`
(line 238). -/
def loadFifteenFindings (la : LoadAverage) (fifteen : ℚ) : List String :=
  pushIf (fifteen > la.fifteen)
    ("`load 15: " ++ fmt4 fifteen ++ " > " ++ fmtQ la.fifteen ++ "`")

/-- The three load-average checks in order. -/
def loadFindings (la : LoadAverage) (one five fifteen : ℚ) : List String :=
  loadOneFindings la one ++ loadFiveFindings la five ++ loadFifteenFindings la fifteen

/-- Body of the `for d in disks` loop (lines 241-248): a watched mount's
free ratio `available_space as f64 / total_space as f64` is checked
strictly below `config.disks.minimum`. -/
def checkDisk (cfg : Disks) (d : DiskEntry) : List String :=
  if cfg.disks.contains d.mount_point then
    pushIf (FVal.lt (fdiv d.available_space d.total_space) cfg.minimum = true)
      ("`" ++ d.mount_point ++ ": " ++ fmt4F (fdiv d.available_space d.total_space)
        ++ " < " ++ fmtQ cfg.minimum ++ "`")
  else []

/-- The whole `for d in disks` loop, accumulating pushes left to right. -/
def diskFindings (cfg : Disks) (entries : List DiskEntry) : List String :=
  entries.foldl (fun errors d => errors ++ checkDisk cfg d) []

/-- Value `memory_perc_free` (lines 250-254): `available/total`, falling back to
`(total - used)/total` when `available_memory() as f64 == 0.0` (for u64
input the cast compares equal to `0.0` exactly when the value is `0`). -/
def memory_perc_free (available total used : ℕ) : FVal :=
  if available = 0 then fdiv (wrapSub total used) total
  else fdiv available total

/-- Expansion of `check_value!("memory", memory_perc_free, <, config.memory.minimum)`
(line 255). -/
def memoryFindings (mem : Memory) (available total used : ℕ) : List String :=
  pushIf (FVal.lt (memory_perc_free available total used) mem.minimum = true)
    ("`memory: " ++ fmt4F (memory_perc_free available total used)
      ++ " < " ++ fmtQ mem.minimum ++ "`")

/-- Expansion of `check_running!` (lines 208-233): when the category is not disabled,
count the processes matching each candidate name; emit the
`"... is not running"` error exactly when no candidate matched. -/
def check_running (disabled : Bool) (names : List String) (procs : List ProcEntry) :
    List String :=
  if !disabled then
    let is_running :=
      names.foldl
        (fun acc name => if (processes_by_name procs name).length ≠ 0 then true else acc)
        false
    if is_running then []
    else ["`" ++ rustJoin ", " names ++ " is not running`"]
  else []

/-- Cast `(s.total_memory() as f64 * 0.75) as u64` (lines 269 and 273): the cast
truncates the nonnegative product toward zero, i.e. `⌊3·total/4⌋`. -/
def mysqlMemoryLimit (total_memory : ℕ) : ℕ :=
  total_memory * 3 / 4

/-- The mysql/mariadb per-process memory checks (lines 266-275): for every
process whose name matches `"mysqld"` (then `"mariadbd"`), compare its
resident memory against three quarters of total memory. -/
def mysqlMemoryFindings (pc : ProcessChecks) (procs : List ProcEntry)
    (total_memory : ℕ) : List String :=
  if !pc.disable_mysql_memory_check then
    ((processes_by_name procs "mysqld").map (fun p =>
        pushIf (p.memory > mysqlMemoryLimit total_memory)
          ("`mysqld: " ++ toString p.memory ++ " > "
            ++ toString (mysqlMemoryLimit total_memory) ++ "`"))).flatten
      ++ ((processes_by_name procs "mariadbd").map (fun p =>
        pushIf (p.memory > mysqlMemoryLimit total_memory)
          ("`mariadbd: " ++ toString p.memory ++ " > "
            ++ toString (mysqlMemoryLimit total_memory) ++ "`"))).flatten
  else []

/-- The duplicate-`b2` check (lines 277-285): count all processes whose name
contains `"b2"` and alert when more than one is running. -/
def b2Findings (procs : List ProcEntry) : List String :=
  let b2_processes_count := (procs.filter (fun p => strContains p.name "b2")).length
  if b2_processes_count > 1 then
    ["`b2 is running " ++ toString b2_processes_count ++ " times`"]
  else []

/-- The heartbeat file path (line 287). -/
def backup_file : String := "/tmp/backup.heartbeat"

/-- The heartbeat check (lines 289-305): a metadata error, an unsupported
modification timestamp (either `modified()` or `elapsed()` failing), or a
modification older than 24 h 15 min each push one error. -/
def heartbeatFindings : HeartbeatObs → List String
  | HeartbeatObs.metaErr e => ["`Heartbeat error: " ++ e ++ "`"]
  | HeartbeatObs.modifiedErr => ["`Heartbeat timestamp not supported`"]
  | HeartbeatObs.elapsedErr => ["`Heartbeat timestamp not supported`"]
  | HeartbeatObs.elapsedSecs s =>
      if s > 60 * 60 * 24 + 60 * 15 then ["`" ++ backup_file ++ " has expired`"]
      else []

/-- The uptime check (lines 307-310): flag a host up for less than
`time_mins = 10` minutes. -/
def uptimeFindings (uptimeSecs : ℕ) : List String :=
  let time_mins : ℕ := 10
  if uptimeSecs < time_mins * 60 then
    ["rebooted within the last " ++ toString time_mins]
  else []

/-- The check section of `main` (lines 235-310): the `errors` vector after
every check has run, each check appending its pushes in program order. -/
def runChecks (config : Config) (s : Snapshot) : List String :=
  let errors : List String := []
  let errors := errors ++ loadOneFindings config.load_average s.load_one
  let errors := errors ++ loadFiveFindings config.load_average s.load_five
  let errors := errors ++ loadFifteenFindings config.load_average s.load_fifteen
  let errors := errors ++ diskFindings config.disks s.disks
  let errors := errors ++
    memoryFindings config.memory s.available_memory s.total_memory s.used_memory
  let errors := errors ++
    check_running config.process_checks.disable_web_server_check
      ["apache2", "nginx"] s.processes
  let errors := errors ++
    check_running config.process_checks.disable_mysql_check
      ["mariadbd", "mysqld"] s.processes
  let errors := errors ++
    mysqlMemoryFindings config.process_checks s.processes s.total_memory
  let errors := errors ++ b2Findings s.processes
  let errors := errors ++ heartbeatFindings s.heartbeat
  let errors := errors ++ uptimeFindings s.uptimeSecs
  errors

/-! ## Alert formatting and delivery decision (lines 312-317) -/

/-- The header of the alert message:
`format!("❗ `{}` \\- `{}`", hostname, ip_addr)`. -/
def alertHeader (hostname ip_addr : String) : String :=
  "❗ `" ++ hostname ++ "` \\- `" ++ ip_addr ++ "`"

/-- Statement `if !errors.is_empty() \x7b send_telegram(.., format!("..{}..\n{}", ..,
errors.join("\n"))) }`: the message handed to the notifier, or `none` when
there is nothing to report. -/
def alertMessage (hostname ip_addr : String) (errors : List String) : Option String :=
  if errors.isEmpty then none
  else some (alertHeader hostname ip_addr ++ "\n" ++ rustJoin "\n" errors)

/-! ## Helper lemmas -/

theorem pushIf_ne_nil (c : Prop) [Decidable c] (l : String) : pushIf c l ≠ [] ↔ c := by
  by_cases h : c <;> simp [pushIf, h]

theorem fdiv_lt_iff (a t : ℕ) (m : ℚ) :
    FVal.lt (fdiv a t) m = true ↔ 0 < t ∧ (a : ℚ) / (t : ℚ) < m := by
  by_cases ht : t = 0
  · subst ht
    by_cases ha : a = 0 <;> simp [fdiv, ha, FVal.lt]
  · simp only [fdiv, ht, if_false, FVal.lt, decide_eq_true_eq, Rat.mkRat_eq_div]
    push_cast
    simp [Nat.pos_of_ne_zero ht]

theorem is_running_foldl (procs : List ProcEntry) (names : List String) (b : Bool) :
    names.foldl
        (fun acc name => if (processes_by_name procs name).length ≠ 0 then true else acc) b
      = (b || names.any fun name => decide ((processes_by_name procs name).length ≠ 0)) := by
  induction names generalizing b with
  | nil => simp
  | cons x xs ih =>
      rw [List.foldl_cons, ih]
      by_cases h : (processes_by_name procs x).length ≠ 0
      · simp [h]
      · rw [not_not] at h
        simp [h]

theorem foldl_append_eq_flatten (f : α → List β) (l : List α) (init : List β) :
    l.foldl (fun acc a => acc ++ f a) init = init ++ (l.map f).flatten := by
  induction l generalizing init with
  | nil => simp
  | cons x xs ih => simp [List.foldl_cons, ih]

/-! ## C1: load-average comparison semantics -/

/-- C1 fails on the code: with resolved one-minute ceiling `1.0` and sampled
one-minute load `3/2`, the sample strictly exceeds the ceiling, yet the
one-minute check (which compares against **twice** the ceiling, line 236)
emits no Finding. -/
theorem loadOne_counterexample_C1 :
    (1 : ℚ) < mkRat 3 2 ∧
      loadOneFindings { one := 1, five := 1, fifteen := 1 } (mkRat 3 2) = [] := by
  constructor
  · decide
  · rw [loadOneFindings, pushIf, if_neg]
    rw [Rat.mkRat_eq_div]
    norm_num

/-- C1 (amended): a Finding is emitted for the five- and fifteen-minute
components iff the sampled component strictly exceeds its resolved ceiling,
but for the one-minute component iff the sample strictly exceeds **twice**
its resolved ceiling; the three checks run independently in order. -/
theorem load_checks_amended_C1 (la : LoadAverage) (one five fifteen : ℚ) :
    (loadOneFindings la one ≠ [] ↔ la.one * 2 < one) ∧
    (loadFiveFindings la five ≠ [] ↔ la.five < five) ∧
    (loadFifteenFindings la fifteen ≠ [] ↔ la.fifteen < fifteen) ∧
    loadFindings la one five fifteen =
      loadOneFindings la one ++ loadFiveFindings la five ++ loadFifteenFindings la fifteen := by
  refine ⟨?_, ?_, ?_, rfl⟩
  · rw [loadOneFindings, pushIf_ne_nil]
  · rw [loadFiveFindings, pushIf_ne_nil]
  · rw [loadFifteenFindings, pushIf_ne_nil]

/-! ## C3: load-average defaults -/

/-- C3: when the operator omits the load-average configuration — the whole
section or all three components — every resolved ceiling equals the host's
logical CPU count cast to f64. -/
theorem load_defaults_C3 (cpuCount : ℕ) (raw : Option RawLoadAverage)
    (h : raw = none ∨ raw = some { one := none, five := none, fifteen := none }) :
    resolveLoadAverage raw cpuCount =
      { one := (cpuCount : ℚ), five := (cpuCount : ℚ), fifteen := (cpuCount : ℚ) } := by
  rcases h with h | h <;> subst h <;> rfl

/-- Witness for C3 at CPU count 4 and a wholly omitted section. -/
theorem load_defaults_C3_witness :
    resolveLoadAverage none 4 =
      { one := ((4 : ℕ) : ℚ), five := ((4 : ℕ) : ℚ), fifteen := ((4 : ℕ) : ℚ) } :=
  load_defaults_C3 4 none (Or.inl rfl)

/-! ## C5: process-presence checks -/

/-- C5: a `check_running!` category emits its Finding iff the category is
enabled (its disable flag is false) and no candidate name matches any
running process; a match, or a disabled category, emits nothing. -/
theorem check_running_C5 (disabled : Bool) (names : List String) (procs : List ProcEntry) :
    check_running disabled names procs ≠ [] ↔
      disabled = false ∧ ∀ n ∈ names, processes_by_name procs n = [] := by
  cases disabled with
  | true => simp [check_running]
  | false =>
      have hrw : check_running false names procs
          = if (names.any fun n => decide ((processes_by_name procs n).length ≠ 0)) then []
            else ["`" ++ rustJoin ", " names ++ " is not running`"] := by
        simp only [check_running, Bool.not_false, if_true, is_running_foldl, Bool.false_or]
      rw [hrw]
      by_cases h : (names.any fun n => decide ((processes_by_name procs n).length ≠ 0)) = true
      · rw [if_pos h]
        simp only [List.any_eq_true, decide_eq_true_eq] at h
        obtain ⟨n, hn, hlen⟩ := h
        constructor
        · intro hcontra; exact absurd rfl hcontra
        · rintro ⟨-, hall⟩
          exact absurd (by simp [hall n hn]) hlen
      · rw [if_neg h]
        simp only [List.any_eq_true, decide_eq_true_eq, not_exists, not_and, not_not] at h
        constructor
        · intro
          exact ⟨rfl, fun n hn => List.length_eq_zero.mp (h n hn)⟩
        · intro
          simp

/-! ## C10: zero-total disk entries -/

/-- C10: a watched disk entry whose total size is zero produces no Finding
and no failure: the f64 quotient is NaN (for zero available bytes; +∞
otherwise) and a strict `<` against the threshold is then false. -/
theorem disk_zero_total_C10 (cfg : Disks) (mount : String) (avail : ℕ) :
    checkDisk cfg { mount_point := mount, available_space := avail, total_space := 0 } = [] ∧
    fdiv 0 0 = FVal.nan ∧ (∀ t : ℚ, FVal.lt FVal.nan t = false) := by
  refine ⟨?_, rfl, fun t => rfl⟩
  rw [checkDisk]
  have hlt : FVal.lt (fdiv avail 0) cfg.minimum = false := by
    by_cases ha : avail = 0 <;> simp [fdiv, ha, FVal.lt]
  split
  · simp [pushIf, hlt]
  · rfl

/-! ## C2: disk free-ratio check -/

theorem diskFindings_eq_flatten (cfg : Disks) (entries : List DiskEntry) :
    diskFindings cfg entries = (entries.map (checkDisk cfg)).flatten := by
  rw [diskFindings, foldl_append_eq_flatten, List.nil_append]

theorem checkDisk_watch_extend (cfg : Disks) (m : String) (d : DiskEntry)
    (h : d.mount_point ≠ m) :
    checkDisk { cfg with disks := m :: cfg.disks } d = checkDisk cfg d := by
  rw [checkDisk, checkDisk]
  have hc : (m :: cfg.disks).contains d.mount_point = cfg.disks.contains d.mount_point := by
    simp [List.contains_cons, h]
  simp only [hc]

/-- C2: a disk entry yields a Finding iff its mount point is watched and its
free ratio is strictly below the configured minimum (so an exactly-equal
ratio or an unwatched mount yields nothing); the loop output is exactly the
per-entry outputs in order; and watching a mount that is absent from the
snapshot changes nothing (and cannot fail). -/
theorem disk_check_C2 (cfg : Disks) (entries : List DiskEntry) (d : DiskEntry) (m : String) :
    (checkDisk cfg d ≠ [] ↔
      d.mount_point ∈ cfg.disks ∧ 0 < d.total_space ∧
        (d.available_space : ℚ) / (d.total_space : ℚ) < cfg.minimum) ∧
    diskFindings cfg entries = (entries.map (checkDisk cfg)).flatten ∧
    (m ∉ entries.map DiskEntry.mount_point →
      diskFindings { cfg with disks := m :: cfg.disks } entries = diskFindings cfg entries) := by
  refine ⟨?_, diskFindings_eq_flatten cfg entries, ?_⟩
  · rw [checkDisk]
    by_cases hc : d.mount_point ∈ cfg.disks
    · rw [if_pos (by simpa using hc), pushIf_ne_nil, fdiv_lt_iff]
      simp [hc]
    · rw [if_neg (by simpa using hc)]
      simp [hc]
  · intro hm
    rw [diskFindings_eq_flatten, diskFindings_eq_flatten]
    congr 1
    apply List.map_congr_left
    intro d' hd'
    apply checkDisk_watch_extend
    intro heq
    exact hm (heq ▸ List.mem_map_of_mem DiskEntry.mount_point hd')

/-- Witness for C2: watching the absent mount `/data` leaves the findings of
a snapshot containing only `/` unchanged. -/
theorem disk_check_C2_witness :
    diskFindings { disks := ["/data", "/"], minimum := mkRat 1 10 }
        [{ mount_point := "/", available_space := 3, total_space := 100 }]
      = diskFindings { disks := ["/"], minimum := mkRat 1 10 }
        [{ mount_point := "/", available_space := 3, total_space := 100 }] :=
  (disk_check_C2 { disks := ["/"], minimum := mkRat 1 10 }
      [{ mount_point := "/", available_space := 3, total_space := 100 }]
      { mount_point := "/", available_space := 3, total_space := 100 } "/data").2.2
    (by decide)

/-! ## C4: memory free-ratio check -/

/-- C4: the memory check divides `available/total` when the source reports
nonzero available memory and `(total - used)/total` when it reports zero,
and (for a positive total within u64 range and `used ≤ total`) emits its
Finding iff the chosen ratio is strictly below the configured minimum. -/
theorem memory_check_C4 (mem : Memory) (available total used : ℕ)
    (h1 : used ≤ total) (_h2 : total < 2 ^ 64) (h3 : 0 < total) :
    (available ≠ 0 →
      (memoryFindings mem available total used ≠ [] ↔
        (available : ℚ) / (total : ℚ) < mem.minimum)) ∧
    (available = 0 →
      (memoryFindings mem available total used ≠ [] ↔
        ((total - used : ℕ) : ℚ) / (total : ℚ) < mem.minimum)) := by
  constructor
  · intro ha
    rw [memoryFindings, pushIf_ne_nil, memory_perc_free, if_neg ha, fdiv_lt_iff]
    simp [h3]
  · intro ha
    rw [memoryFindings, pushIf_ne_nil, memory_perc_free, if_pos ha, wrapSub,
      if_pos h1, fdiv_lt_iff]
    simp [h3]

/-- Witness for C4: available reported as zero, total 100, used 90,
minimum 1/20. -/
theorem memory_check_C4_witness :
    memoryFindings { minimum := mkRat 1 20 } 0 100 90 ≠ [] ↔
      ((100 - 90 : ℕ) : ℚ) / ((100 : ℕ) : ℚ) < mkRat 1 20 :=
  (memory_check_C4 { minimum := mkRat 1 20 } 0 100 90 (by norm_num) (by norm_num)
    (by norm_num)).2 rfl

/-! ## C6: heartbeat freshness -/

theorem label_ne_of_getElem (p e q t : String) (i : ℕ) (hi : i < p.data.length)
    (hne : p.data[i]? ≠ t.data[i]?) : p ++ e ++ q ≠ t := by
  intro h
  apply hne
  have hd : ((p ++ e ++ q).data)[i]? = t.data[i]? := by rw [h]
  rw [String.data_append, String.data_append] at hd
  have h1 : i < (p.data ++ e.data).length := by
    rw [List.length_append]
    omega
  rw [List.getElem?_append_left h1, List.getElem?_append_left hi] at hd
  exact hd

/-- C6: the staleness Finding is emitted iff the elapsed time since the
heartbeat file's modification strictly exceeds 24 h 15 min (87300 s), and
the three failure modes — metadata error, unsupported modification
timestamp, staleness — carry pairwise distinct labels (shown against the
staleness label produced at 25 h = 90000 s). -/
theorem heartbeat_C6 :
    (∀ s : ℕ, heartbeatFindings (HeartbeatObs.elapsedSecs s) ≠ [] ↔
      60 * 60 * 24 + 60 * 15 < s) ∧
    heartbeatFindings (HeartbeatObs.elapsedSecs 90000)
      = ["`" ++ backup_file ++ " has expired`"] ∧
    (∀ e : String, heartbeatFindings (HeartbeatObs.metaErr e)
      ≠ heartbeatFindings HeartbeatObs.modifiedErr) ∧
    (∀ e : String, heartbeatFindings (HeartbeatObs.metaErr e)
      ≠ heartbeatFindings (HeartbeatObs.elapsedSecs 90000)) ∧
    heartbeatFindings HeartbeatObs.modifiedErr
      ≠ heartbeatFindings (HeartbeatObs.elapsedSecs 90000) := by
  refine ⟨?_, rfl, ?_, ?_, by decide⟩
  · intro s
    by_cases h : 60 * 60 * 24 + 60 * 15 < s <;> simp [heartbeatFindings, h]
  · intro e
    simp only [heartbeatFindings, ne_eq, List.cons.injEq, and_true, not_and]
    intro hcontra
    exact absurd hcontra
      (label_ne_of_getElem "`Heartbeat error: " e "`"
        "`Heartbeat timestamp not supported`" 11 (by decide) (by decide))
  · intro e
    have h90 : heartbeatFindings (HeartbeatObs.elapsedSecs 90000)
        = ["`" ++ backup_file ++ " has expired`"] := rfl
    rw [h90]
    simp only [heartbeatFindings, ne_eq, List.cons.injEq, and_true, not_and]
    intro hcontra
    exact absurd hcontra
      (label_ne_of_getElem "`Heartbeat error: " e "`"
        ("`" ++ backup_file ++ " has expired`") 1 (by decide) (by decide))

/-! ## C7: alert assembly -/

theorem rustJoin_data (sep : String) : ∀ l : List String,
    (rustJoin sep l).data = List.intercalate sep.data (l.map String.data)
  | [] => by simp [rustJoin, List.intercalate]
  | [a] => by simp [rustJoin, List.intercalate]
  | a :: b :: rest => by
      have ih := rustJoin_data sep (b :: rest)
      rw [rustJoin, String.data_append, String.data_append, ih]
      simp [List.intercalate, List.intersperse_cons_cons]

theorem intercalate_cons_of_ne_nil (sep x : List Char) (xs : List (List Char))
    (h : xs ≠ []) :
    List.intercalate sep (x :: xs) = x ++ sep ++ List.intercalate sep xs := by
  cases xs with
  | nil => exact absurd rfl h
  | cons b t => simp [List.intercalate, List.intersperse_cons_cons]

theorem alertMessage_lines (hostname ip : String) (errors : List String)
    (hh : ('\n' : Char) ∉ (alertHeader hostname ip).data)
    (he : ∀ l ∈ errors, ('\n' : Char) ∉ l.data) (hne : errors ≠ []) :
    ∃ msg, alertMessage hostname ip errors = some msg ∧
      msg.data.splitOn '\n' = (alertHeader hostname ip).data :: errors.map String.data := by
  refine ⟨alertHeader hostname ip ++ "\n" ++ rustJoin "\n" errors, ?_, ?_⟩
  · rw [alertMessage, if_neg (by simpa using hne)]
  · have hdata : (alertHeader hostname ip ++ "\n" ++ rustJoin "\n" errors).data
        = List.intercalate ['\n']
            ((alertHeader hostname ip).data :: errors.map String.data) := by
      rw [String.data_append, String.data_append, rustJoin_data,
        intercalate_cons_of_ne_nil _ _ _ (by simpa using hne)]
    rw [hdata]
    apply List.splitOn_intercalate
    · intro l hl
      rcases List.mem_cons.mp hl with h | h
      · exact h ▸ hh
      · obtain ⟨e, he', rfl⟩ := List.mem_map.mp h
        exact he e he'
    · exact List.cons_ne_nil _ _

/-- C7: no alert is produced from an empty finding list; a nonempty finding
list produces one message whose lines are exactly the host header followed
by the findings in order; and the accumulated `errors` vector is the
per-check outputs concatenated in the fixed program order (load → disks →
memory → process presence → process memory → duplicate process → heartbeat
→ uptime). -/
theorem alert_assembly_C7 (hostname ip : String) (errors : List String)
    (config : Config) (s : Snapshot)
    (hh : ('\n' : Char) ∉ (alertHeader hostname ip).data)
    (he : ∀ l ∈ errors, ('\n' : Char) ∉ l.data) :
    alertMessage hostname ip [] = none ∧
    (errors ≠ [] → ∃ msg, alertMessage hostname ip errors = some msg ∧
      msg.data.splitOn '\n' = (alertHeader hostname ip).data :: errors.map String.data) ∧
    runChecks config s =
      loadFindings config.load_average s.load_one s.load_five s.load_fifteen
        ++ diskFindings config.disks s.disks
        ++ memoryFindings config.memory s.available_memory s.total_memory s.used_memory
        ++ check_running config.process_checks.disable_web_server_check
            ["apache2", "nginx"] s.processes
        ++ check_running config.process_checks.disable_mysql_check
            ["mariadbd", "mysqld"] s.processes
        ++ mysqlMemoryFindings config.process_checks s.processes s.total_memory
        ++ b2Findings s.processes
        ++ heartbeatFindings s.heartbeat
        ++ uptimeFindings s.uptimeSecs := by
  refine ⟨rfl, alertMessage_lines hostname ip errors hh he, ?_⟩
  simp [runChecks, loadFindings, List.append_assoc]

/-- Witness for C7: two newline-free findings on a concrete host. -/
theorem alert_assembly_C7_witness :
    ∃ msg, alertMessage "myhost" "203.0.113.7"
        ["`memory: 0.0300 < 0.05`", "`/tmp/backup.heartbeat has expired`"] = some msg ∧
      msg.data.splitOn '\n' = (alertHeader "myhost" "203.0.113.7").data ::
        ["`memory: 0.0300 < 0.05`", "`/tmp/backup.heartbeat has expired`"].map String.data :=
  ((alert_assembly_C7 "myhost" "203.0.113.7"
      ["`memory: 0.0300 < 0.05`", "`/tmp/backup.heartbeat has expired`"]
      { telegram_token := "token"
        telegram_chat_id := "chat"
        disable_self_update := true
        memory := { minimum := mkRat 1 20 }
        disks := { disks := ["/"], minimum := mkRat 1 20 }
        load_average := { one := 1, five := 1, fifteen := 1 }
        process_checks :=
          { disable_mysql_check := true
            disable_mysql_memory_check := true
            disable_web_server_check := true } }
      { load_one := 0
        load_five := 0
        load_fifteen := 0
        disks := []
        available_memory := 50
        total_memory := 100
        used_memory := 50
        processes := []
        heartbeat := HeartbeatObs.elapsedSecs 0
        uptimeSecs := 700 }
      (by decide) (by decide)).2.1) (by decide)

/-! ## C8: markup escaping of finding lines -/

/-- C8 fails on the code (code bug): a watched mount path containing a
backtick — a character with special meaning in the Telegram MarkdownV2
markup the message is sent with (`parse_mode = "MarkdownV2"`) — is copied
into the finding line verbatim.  The produced line contains the raw
backtick from the input and no backslash at all, so no escaping of any
special character took place and the stray backtick breaks the code-span
quoting of the line. -/
theorem escaping_C8 :
    checkDisk { disks := ["/a`b"], minimum := mkRat 1 20 }
        { mount_point := "/a`b", available_space := 0, total_space := 100 }
      = ["`/a`b: 0.0000 < 0.05`"] ∧
    ('`' ∈ "/a`b".data) ∧
    List.count '`' ("`/a`b: 0.0000 < 0.05`").data = 3 ∧
    List.count '\\' ("`/a`b: 0.0000 < 0.05`").data = 0 := by
  refine ⟨?_, by decide, by decide, by decide⟩
  decide

/-! ## C9: process exit behaviour -/

/-- The ways `main` can return `Err` (propagated with `?`): reading or
parsing the configuration (lines 135-136), and building or running the
self-update (lines 157-167). -/
inductive MainError where
  | configError : String → MainError
  | selfUpdateError : String → MainError
deriving DecidableEq

/-- The outside world as `main` observes it: the configuration file read
(`fs::read_to_string`), the TOML parse, the self-update outcome
(`Ok (some v)` = updated to `v`, `Ok none` = already current, `error` =
a `?`-propagated failure), the metric snapshot, host identity lookups
(`None` = unavailable, replaced by `"unknown"`), and whether the Telegram
delivery succeeds (`send_telegram` logs and swallows either way). -/
structure Env where
  read_config : Except String String
  parse_config : String → Except String Config
  self_update : Except String (Option String)
  snapshot : Snapshot
  host_name : Option String
  ip_addr : Option String
  send_ok : Bool

/-- Function `fn main` (lines 134-320): read and parse the configuration (each `?`
aborts with a config error), resolve host identity with `"unknown"`
fallbacks, run the self-update unless disabled (its `?`s abort with a
self-update error), then run every check and hand any nonempty alert to
`send_telegram`, whose failure is logged and swallowed; the checks and the
delivery never affect the return value. -/
def runMain (env : Env) : Except MainError Unit :=
  match env.read_config with
  | Except.error e => Except.error (MainError.configError e)
  | Except.ok contents =>
    match env.parse_config contents with
    | Except.error e => Except.error (MainError.configError e)
    | Except.ok config =>
      let hostname := env.host_name.getD "unknown"
      let ip_addr := env.ip_addr.getD "unknown"
      match
        (if !config.disable_self_update then env.self_update
         else Except.ok none) with
      | Except.error e => Except.error (MainError.selfUpdateError e)
      | Except.ok _ =>
        let errors := runChecks config env.snapshot
        let _message := alertMessage hostname ip_addr errors
        -- `send_telegram` (lines 114-132) prints failures and returns `()`.
        Except.ok ()

/-- A run whose configuration loads and parses successfully but whose
enabled self-update fails. -/
def envSelfUpdateFail : Env :=
  { read_config := Except.ok "telegram_token = \"t\""
    parse_config := fun _ =>
      Except.ok
        { telegram_token := "t"
          telegram_chat_id := "c"
          disable_self_update := false
          memory := { minimum := mkRat 1 20 }
          disks := { disks := ["/"], minimum := mkRat 1 20 }
          load_average := { one := 1, five := 1, fifteen := 1 }
          process_checks :=
            { disable_mysql_check := true
              disable_mysql_memory_check := true
              disable_web_server_check := true } }
    self_update := Except.error "GitHub release lookup failed"
    snapshot :=
      { load_one := 0
        load_five := 0
        load_fifteen := 0
        disks := []
        available_memory := 50
        total_memory := 100
        used_memory := 50
        processes := []
        heartbeat := HeartbeatObs.elapsedSecs 0
        uptimeSecs := 700 }
    host_name := some "myhost"
    ip_addr := some "203.0.113.7"
    send_ok := true }

/-- C9 fails on the code: a run whose configuration is read and parsed
successfully (and whose host identity is available) still exits non-zero,
because the enabled self-update's failure is propagated with `?` before
the checks run. -/
theorem exit_counterexample_C9 :
    envSelfUpdateFail.read_config.isOk = true ∧
    (envSelfUpdateFail.parse_config "telegram_token = \"t\"").isOk = true ∧
    envSelfUpdateFail.host_name.isSome = true ∧
    runMain envSelfUpdateFail
      = Except.error (MainError.selfUpdateError "GitHub release lookup failed") :=
  ⟨rfl, rfl, rfl, rfl⟩

/-- C9 (amended): the process exits non-zero exactly when configuration
reading/parsing fails or when self-update is enabled and fails; any run
that reaches the checks exits zero, and neither the snapshot (hence the
findings) nor the delivery outcome can change the exit status. -/
theorem exit_behaviour_amended_C9 (env : Env) :
    (runMain env = Except.ok () ↔
      ∃ t, env.read_config = Except.ok t ∧
        ∃ c, env.parse_config t = Except.ok c ∧
          (c.disable_self_update = true ∨ ∃ v, env.self_update = Except.ok v)) ∧
    (∀ s' : Snapshot, ∀ b : Bool,
      runMain { env with snapshot := s', send_ok := b } = runMain env) := by
  constructor
  · rw [runMain]
    cases hr : env.read_config with
    | error e => simp
    | ok t =>
        simp only
        cases hp : env.parse_config t with
        | error e => simp [hp]
        | ok c =>
            simp only
            cases hd : c.disable_self_update with
            | true =>
                simp only [hd, Bool.not_true, Bool.false_eq_true, if_false]
                simp [hp, hd]
            | false =>
                simp only [hd, Bool.not_false, if_true]
                cases hu : env.self_update with
                | error e => simp [hp, hd, hu]
                | ok v => simp [hp, hd, hu]
  · intro s' b
    rw [runMain, runMain]
